import Mathlib

/-!
Shallow embedding of src/gmaps/polyline.py (the Polyline widget of the gmaps
package): coordinate validation, bounding-box derivation, and the
trait-assignment discipline (validate, then commit atomically, then recompute
derived state). Coordinates are embedded as rationals; the committed widget
state is a record, and each assignment is an explicit state-passing function
returning either the new state or the error the framework would raise.
-/

/-- A row of the `data` trait: Python represents each point as a dict with
keys lat and lng (see `_validate_data` and `_calc_bounds` in polyline.py). -/
structure LatLng where
  lat : ℚ
  lng : ℚ
deriving DecidableEq, Repr

/-- The errors an assignment can raise: `invalidPoint` embeds
`geotraitlets.InvalidPointException` carrying the offending pair,
`lengthError` the traitlets error for a `List(minlen=2)` violation, and
`outOfRange` the traitlets error for a `Float(min, max)` violation. -/
inductive TraitError where
  | invalidPoint (p : LatLng) : TraitError
  | lengthError (n : Nat) : TraitError
  | outOfRange (trait : String) (v : ℚ) : TraitError
deriving DecidableEq, Repr

/-- Modelled from the spec: `geotraitlets.is_valid_point` (module
gmaps.geotraitlets is not among the provided sources). Per the spec, for every
Coordinate check -90 <= lat <= 90 and -180 <= lng <= 180, inclusive bounds. -/
def is_valid_point (p : ℚ × ℚ) : Bool :=
  decide (-90 ≤ p.1) && decide (p.1 ≤ 90) &&
    decide (-180 ≤ p.2) && decide (p.2 ≤ 180)

/-- `Polyline._validate_data`: iterate over the proposed value and raise
`InvalidPointException` at the first point failing `is_valid_point`; on
success return the proposed value unchanged. -/
def _validate_data (pts : List LatLng) : Except TraitError (List LatLng) :=
  match pts.find? (fun p => ! is_valid_point (p.lat, p.lng)) with
  | some p => Except.error (TraitError.invalidPoint p)
  | none => Except.ok pts

/-- Python builtin `min` over a non-empty sequence with first element `x` and
remaining elements `l`: a left fold of binary `min`. -/
def pymin (x : ℚ) (l : List ℚ) : ℚ := l.foldl min x

/-- Python builtin `max` over a non-empty sequence with first element `x` and
remaining elements `l`: a left fold of binary `max`. -/
def pymax (x : ℚ) (l : List ℚ) : ℚ := l.foldl max x

/-- `Polyline._calc_bounds` applied to the new value of `data`: per-axis
minima and maxima packaged as [(min_lat, min_lng), (max_lat, max_lng)].
Python `min`/`max` raise on an empty sequence; that branch is unreachable
because `data` is declared `List(minlen=2)`, and the embedding returns []
there. -/
def _calc_bounds : List LatLng → List (ℚ × ℚ)
  | [] => []
  | p :: rest =>
    [ (pymin p.lat (rest.map LatLng.lat), pymin p.lng (rest.map LatLng.lng)),
      (pymax p.lat (rest.map LatLng.lat), pymax p.lng (rest.map LatLng.lng)) ]

/-- The synchronized state of the Polyline widget. -/
structure Polyline where
  geodesic : Bool
  stroke_color : String
  stroke_opacity : ℚ
  stroke_weight : ℚ
  data : List LatLng
  data_bounds : List (ℚ × ℚ)
deriving DecidableEq, Repr

/-- The trait defaults declared on the Polyline class: geodesic=True,
stroke_color="#FF0000", stroke_opacity=1.0, stroke_weight=2, data and
data_bounds empty. -/
def Polyline.defaultState : Polyline :=
  { geodesic := true, stroke_color := "#FF0000", stroke_opacity := 1,
    stroke_weight := 2, data := [], data_bounds := [] }

/-- Assignment to the `data` trait: the traitlets `List(minlen=2)` container
check runs first, then the `_validate_data` cross-validator; only if both pass
is the value committed, after which the `_calc_bounds` observer recomputes
`data_bounds` from the new value. -/
def setData (w : Polyline) (pts : List LatLng) : Except TraitError Polyline :=
  if pts.length < 2 then Except.error (TraitError.lengthError pts.length)
  else
    match _validate_data pts with
    | Except.error e => Except.error e
    | Except.ok v => Except.ok { w with data := v, data_bounds := _calc_bounds v }

/-- An attempted assignment to `data` as a state transition: on success the
new state and no error, on failure the prior committed state unchanged together
with the raised error. -/
def assignData (w : Polyline) (pts : List LatLng) : Polyline × Option TraitError :=
  match setData w pts with
  | Except.ok w2 => (w2, none)
  | Except.error e => (w, some e)

/-- Assignment to `stroke_opacity`, declared `Float(min=0.0, max=1.0)`:
traitlets rejects a value outside [0, 1] and leaves the committed value
unchanged; an in-range value is committed. -/
def assignStrokeOpacity (w : Polyline) (v : ℚ) : Polyline × Option TraitError :=
  if 0 ≤ v ∧ v ≤ 1 then ({ w with stroke_opacity := v }, none)
  else (w, some (TraitError.outOfRange ("stroke_opacity") v))

/-- Assignment to `stroke_weight`, declared `Float(min=1.0, max=5.0)`:
traitlets rejects a value outside [1, 5] and leaves the committed value
unchanged; an in-range value is committed. -/
def assignStrokeWeight (w : Polyline) (v : ℚ) : Polyline × Option TraitError :=
  if 1 ≤ v ∧ v ≤ 5 then ({ w with stroke_weight := v }, none)
  else (w, some (TraitError.outOfRange ("stroke_weight") v))

/-- Modelled from the spec: `locations_to_latlng` (module gmaps.locations is
not among the provided sources). Per the spec, the construction helper
normalizes a raw iterable of (lat, lng) pairs into the Coordinate record
representation, with no other logic. -/
def locations_to_latlng (points : List (ℚ × ℚ)) : List LatLng :=
  points.map (fun p => { lat := p.1, lng := p.2 })

/-- The keyword-argument record built by `_polyline_options`. -/
structure PolylineOptions where
  data : List LatLng
  geodesic : Bool
  stroke_color : String
  stroke_opacity : ℚ
  stroke_weight : ℚ

/-- `_polyline_options`: normalize the points and package the style
parameters verbatim. -/
def _polyline_options (points : List (ℚ × ℚ)) (geodesic : Bool)
    (stroke_color : String) (stroke_opacity : ℚ) (stroke_weight : ℚ) :
    PolylineOptions :=
  { data := locations_to_latlng points, geodesic := geodesic,
    stroke_color := stroke_color, stroke_opacity := stroke_opacity,
    stroke_weight := stroke_weight }

/-- `polyline_layer`: construct a Polyline from the options record. Widget
construction assigns every supplied trait, so the declared range constraints
on the style floats and the validation-and-derivation pipeline on `data` all
run; any failure aborts construction. -/
def polyline_layer (points : List (ℚ × ℚ)) (geodesic : Bool)
    (stroke_color : String) (stroke_opacity : ℚ) (stroke_weight : ℚ) :
    Except TraitError Polyline :=
  let opts := _polyline_options points geodesic stroke_color stroke_opacity
    stroke_weight
  if ¬ (0 ≤ opts.stroke_opacity ∧ opts.stroke_opacity ≤ 1) then
    Except.error (TraitError.outOfRange ("stroke_opacity") opts.stroke_opacity)
  else if ¬ (1 ≤ opts.stroke_weight ∧ opts.stroke_weight ≤ 5) then
    Except.error (TraitError.outOfRange ("stroke_weight") opts.stroke_weight)
  else
    setData
      { geodesic := opts.geodesic, stroke_color := opts.stroke_color,
        stroke_opacity := opts.stroke_opacity,
        stroke_weight := opts.stroke_weight, data := [], data_bounds := [] }
      opts.data

/-- `polyline_layer` at its declared default style parameters:
geodesic=True, stroke_color="#FF0000", stroke_opacity=1.0, stroke_weight=2. -/
def polyline_layer_defaults (points : List (ℚ × ℚ)) : Except TraitError Polyline :=
  polyline_layer points true ("#FF0000") 1 2

/-! ### Helper lemmas about the fold-based minima and maxima -/

theorem pymin_mem (x : ℚ) (l : List ℚ) : pymin x l ∈ x :: l :=
  List.min?_mem (fun a b => min_choice a b)
    (rfl : (x :: l).min? = some (pymin x l))

theorem pymin_le (x : ℚ) (l : List ℚ) : ∀ y ∈ x :: l, pymin x l ≤ y := by
  intro y hy
  exact (List.le_min?_iff (fun a b c => le_min_iff)
    (rfl : (x :: l).min? = some (pymin x l))).1 (le_refl _) y hy

theorem pymax_mem (x : ℚ) (l : List ℚ) : pymax x l ∈ x :: l :=
  List.max?_mem (fun a b => max_choice a b)
    (rfl : (x :: l).max? = some (pymax x l))

theorem le_pymax (x : ℚ) (l : List ℚ) : ∀ y ∈ x :: l, y ≤ pymax x l := by
  intro y hy
  exact (List.max?_le_iff (fun a b c => max_le_iff)
    (rfl : (x :: l).max? = some (pymax x l))).1 (le_refl _) y hy

theorem pymin_perm {x1 x2 : ℚ} {l1 l2 : List ℚ}
    (h : (x1 :: l1).Perm (x2 :: l2)) : pymin x1 l1 = pymin x2 l2 := by
  apply le_antisymm
  · exact pymin_le x1 l1 _ (h.symm.subset (pymin_mem x2 l2))
  · exact pymin_le x2 l2 _ (h.subset (pymin_mem x1 l1))

theorem pymax_perm {x1 x2 : ℚ} {l1 l2 : List ℚ}
    (h : (x1 :: l1).Perm (x2 :: l2)) : pymax x1 l1 = pymax x2 l2 := by
  apply le_antisymm
  · exact le_pymax x2 l2 _ (h.subset (pymax_mem x1 l1))
  · exact le_pymax x1 l1 _ (h.symm.subset (pymax_mem x2 l2))

/-! ### Helper lemmas about assignment to the data trait -/

theorem validate_data_ok (pts : List LatLng)
    (hvalid : ∀ p ∈ pts, is_valid_point (p.lat, p.lng) = true) :
    _validate_data pts = Except.ok pts := by
  unfold _validate_data
  have hnone : pts.find? (fun p => ! is_valid_point (p.lat, p.lng)) = none := by
    rw [List.find?_eq_none]
    intro p hp
    simp [hvalid p hp]
  rw [hnone]

theorem setData_ok (w : Polyline) (pts : List LatLng)
    (hlen : 2 ≤ pts.length)
    (hvalid : ∀ p ∈ pts, is_valid_point (p.lat, p.lng) = true) :
    setData w pts =
      Except.ok { w with data := pts, data_bounds := _calc_bounds pts } := by
  unfold setData
  rw [if_neg (by omega), validate_data_ok pts hvalid]

theorem assignData_ok (w : Polyline) (pts : List LatLng)
    (hlen : 2 ≤ pts.length)
    (hvalid : ∀ p ∈ pts, is_valid_point (p.lat, p.lng) = true) :
    assignData w pts =
      ({ w with data := pts, data_bounds := _calc_bounds pts }, none) := by
  unfold assignData
  rw [setData_ok w pts hlen hvalid]

theorem lat_mem_map {q p : LatLng} {rest : List LatLng} (hq : q ∈ p :: rest) :
    q.lat ∈ p.lat :: rest.map LatLng.lat := by
  rcases List.mem_cons.mp hq with h | h
  · subst h; exact List.mem_cons_self _ _
  · exact List.mem_cons_of_mem _ (List.mem_map_of_mem _ h)

theorem lng_mem_map {q p : LatLng} {rest : List LatLng} (hq : q ∈ p :: rest) :
    q.lng ∈ p.lng :: rest.map LatLng.lng := by
  rcases List.mem_cons.mp hq with h | h
  · subst h; exact List.mem_cons_self _ _
  · exact List.mem_cons_of_mem _ (List.mem_map_of_mem _ h)

theorem calc_bounds_spec (p : LatLng) (rest : List LatLng) :
    ∃ a b c d, _calc_bounds (p :: rest) = [(a, b), (c, d)] ∧
      a ∈ (p :: rest).map LatLng.lat ∧ (∀ q ∈ p :: rest, a ≤ q.lat) ∧
      b ∈ (p :: rest).map LatLng.lng ∧ (∀ q ∈ p :: rest, b ≤ q.lng) ∧
      c ∈ (p :: rest).map LatLng.lat ∧ (∀ q ∈ p :: rest, q.lat ≤ c) ∧
      d ∈ (p :: rest).map LatLng.lng ∧ (∀ q ∈ p :: rest, q.lng ≤ d) := by
  refine ⟨pymin p.lat (rest.map LatLng.lat), pymin p.lng (rest.map LatLng.lng),
    pymax p.lat (rest.map LatLng.lat), pymax p.lng (rest.map LatLng.lng),
    rfl, ?_, ?_, ?_, ?_, ?_, ?_, ?_, ?_⟩
  · rw [List.map_cons]; exact pymin_mem _ _
  · intro q hq; exact pymin_le _ _ _ (lat_mem_map hq)
  · rw [List.map_cons]; exact pymin_mem _ _
  · intro q hq; exact pymin_le _ _ _ (lng_mem_map hq)
  · rw [List.map_cons]; exact pymax_mem _ _
  · intro q hq; exact le_pymax _ _ _ (lat_mem_map hq)
  · rw [List.map_cons]; exact pymax_mem _ _
  · intro q hq; exact le_pymax _ _ _ (lng_mem_map hq)

theorem valid_point_ranges {p : LatLng}
    (h : is_valid_point (p.lat, p.lng) = true) :
    -90 ≤ p.lat ∧ p.lat ≤ 90 ∧ -180 ≤ p.lng ∧ p.lng ≤ 180 := by
  simp only [is_valid_point, Bool.and_eq_true, decide_eq_true_eq] at h
  exact ⟨h.1.1.1, h.1.1.2, h.1.2, h.2⟩

/-! ### Claim theorems -/

/-- C1: for every valid point sequence (each coordinate in range, length at
least 2), committing it to the data trait succeeds and data_bounds is the
two-element list [(min lat, min lng), (max lat, max lng)], each extremum
computed independently per axis: each bound component is attained in the
sequence and bounds the corresponding axis of every point. -/
theorem setData_bounds_minmax (w : Polyline) (pts : List LatLng)
    (hlen : 2 ≤ pts.length)
    (hvalid : ∀ p ∈ pts, is_valid_point (p.lat, p.lng) = true) :
    ∃ w2, setData w pts = Except.ok w2 ∧
      ∃ a b c d, w2.data_bounds = [(a, b), (c, d)] ∧
        a ∈ pts.map LatLng.lat ∧ (∀ q ∈ pts, a ≤ q.lat) ∧
        b ∈ pts.map LatLng.lng ∧ (∀ q ∈ pts, b ≤ q.lng) ∧
        c ∈ pts.map LatLng.lat ∧ (∀ q ∈ pts, q.lat ≤ c) ∧
        d ∈ pts.map LatLng.lng ∧ (∀ q ∈ pts, q.lng ≤ d) := by
  cases pts with
  | nil => simp at hlen
  | cons p rest =>
    refine ⟨{ w with data := p :: rest, data_bounds := _calc_bounds (p :: rest) },
      setData_ok w (p :: rest) hlen hvalid, ?_⟩
    exact calc_bounds_spec p rest

theorem setData_bounds_minmax_witness :
    2 ≤ ([⟨1, 2⟩, ⟨3, 4⟩] : List LatLng).length ∧
    (∀ p ∈ ([⟨1, 2⟩, ⟨3, 4⟩] : List LatLng),
      is_valid_point (p.lat, p.lng) = true) ∧
    ∃ w2, setData Polyline.defaultState [⟨1, 2⟩, ⟨3, 4⟩] = Except.ok w2 ∧
      ∃ a b c d, w2.data_bounds = [(a, b), (c, d)] ∧
        a ∈ ([⟨1, 2⟩, ⟨3, 4⟩] : List LatLng).map LatLng.lat ∧
        (∀ q ∈ ([⟨1, 2⟩, ⟨3, 4⟩] : List LatLng), a ≤ q.lat) ∧
        b ∈ ([⟨1, 2⟩, ⟨3, 4⟩] : List LatLng).map LatLng.lng ∧
        (∀ q ∈ ([⟨1, 2⟩, ⟨3, 4⟩] : List LatLng), b ≤ q.lng) ∧
        c ∈ ([⟨1, 2⟩, ⟨3, 4⟩] : List LatLng).map LatLng.lat ∧
        (∀ q ∈ ([⟨1, 2⟩, ⟨3, 4⟩] : List LatLng), q.lat ≤ c) ∧
        d ∈ ([⟨1, 2⟩, ⟨3, 4⟩] : List LatLng).map LatLng.lng ∧
        (∀ q ∈ ([⟨1, 2⟩, ⟨3, 4⟩] : List LatLng), q.lng ≤ d) :=
  ⟨by decide, by decide,
    setData_bounds_minmax Polyline.defaultState [⟨1, 2⟩, ⟨3, 4⟩]
      (by decide) (by decide)⟩

/-- C2: a sequence of length at least 2 containing an out-of-range
coordinate is rejected: the assignment raises InvalidPointException carrying
an offending pair of the sequence, and the previously committed state is
returned unchanged (no partial update). -/
theorem setData_invalid_rejected (w : Polyline) (pts : List LatLng)
    (hlen : 2 ≤ pts.length)
    (hbad : ∃ p ∈ pts, is_valid_point (p.lat, p.lng) = false) :
    ∃ q ∈ pts, is_valid_point (q.lat, q.lng) = false ∧
      assignData w pts = (w, some (TraitError.invalidPoint q)) := by
  cases hf : pts.find? (fun p => ! is_valid_point (p.lat, p.lng)) with
  | none =>
    exfalso
    obtain ⟨p, hp, hpv⟩ := hbad
    have := List.find?_eq_none.mp hf p hp
    simp [hpv] at this
  | some q =>
    have hq : q ∈ pts := List.mem_of_find?_eq_some hf
    have hqv : is_valid_point (q.lat, q.lng) = false := by
      have := List.find?_some hf
      simpa using this
    refine ⟨q, hq, hqv, ?_⟩
    unfold assignData setData _validate_data
    rw [if_neg (by omega), hf]

theorem setData_invalid_rejected_witness :
    2 ≤ ([⟨1, 2⟩, ⟨100, 0⟩] : List LatLng).length ∧
    (∃ p ∈ ([⟨1, 2⟩, ⟨100, 0⟩] : List LatLng),
      is_valid_point (p.lat, p.lng) = false) ∧
    ∃ q ∈ ([⟨1, 2⟩, ⟨100, 0⟩] : List LatLng),
      is_valid_point (q.lat, q.lng) = false ∧
      assignData Polyline.defaultState [⟨1, 2⟩, ⟨100, 0⟩] =
        (Polyline.defaultState, some (TraitError.invalidPoint ⟨100, 0⟩)) :=
  ⟨by decide, by decide,
    by
      obtain ⟨q, hq, hqv, heq⟩ :=
        setData_invalid_rejected Polyline.defaultState [⟨1, 2⟩, ⟨100, 0⟩]
          (by decide) (by decide)
      refine ⟨q, hq, hqv, ?_⟩
      have : q = (⟨100, 0⟩ : LatLng) := by
        rcases List.mem_cons.mp hq with h | h
        · exfalso; subst h; exact absurd hqv (by decide)
        · simpa using h
      rw [this] at heq
      exact heq⟩

/-- C3: a sequence of length 1 is rejected by the minlen=2 container check
regardless of whether the single coordinate is in range, and the prior state
is unchanged. -/
theorem setData_singleton_rejected (w : Polyline) (p : LatLng) :
    assignData w [p] = (w, some (TraitError.lengthError 1)) := by
  unfold assignData setData
  simp

/-- C4: the coordinate range bounds are inclusive: every sequence of length
at least 2 whose coordinates all satisfy -90 ≤ lat ≤ 90 and -180 ≤ lng ≤ 180
(boundary values included) is accepted without error and committed as is. -/
theorem setData_boundary_accepted (w : Polyline) (pts : List LatLng)
    (hlen : 2 ≤ pts.length)
    (hvalid : ∀ p ∈ pts, -90 ≤ p.lat ∧ p.lat ≤ 90 ∧ -180 ≤ p.lng ∧ p.lng ≤ 180) :
    (assignData w pts).2 = none ∧ (assignData w pts).1.data = pts := by
  have hv : ∀ p ∈ pts, is_valid_point (p.lat, p.lng) = true := by
    intro p hp
    obtain ⟨h1, h2, h3, h4⟩ := hvalid p hp
    simp only [is_valid_point, Bool.and_eq_true, decide_eq_true_eq]
    exact ⟨⟨⟨h1, h2⟩, h3⟩, h4⟩
  rw [assignData_ok w pts hlen hv]
  exact ⟨rfl, rfl⟩

theorem setData_boundary_accepted_witness :
    2 ≤ ([⟨90, 180⟩, ⟨-90, -180⟩] : List LatLng).length ∧
    (∀ p ∈ ([⟨90, 180⟩, ⟨-90, -180⟩] : List LatLng),
      -90 ≤ p.lat ∧ p.lat ≤ 90 ∧ -180 ≤ p.lng ∧ p.lng ≤ 180) ∧
    (assignData Polyline.defaultState [⟨90, 180⟩, ⟨-90, -180⟩]).2 = none ∧
    (assignData Polyline.defaultState [⟨90, 180⟩, ⟨-90, -180⟩]).1.data =
      [⟨90, 180⟩, ⟨-90, -180⟩] :=
  ⟨by decide, by decide,
    setData_boundary_accepted Polyline.defaultState [⟨90, 180⟩, ⟨-90, -180⟩]
      (by decide) (by decide)⟩

/-- C5: re-assigning data to a new valid sequence recomputes data_bounds from
the new sequence alone: whatever the previously committed state (the prior
data and data_bounds are arbitrary), the resulting data_bounds equals
_calc_bounds of the new sequence, a value independent of the prior state. -/
theorem setData_bounds_recomputed (w : Polyline) (pts : List LatLng)
    (hlen : 2 ≤ pts.length)
    (hvalid : ∀ p ∈ pts, is_valid_point (p.lat, p.lng) = true) :
    (assignData w pts).1.data_bounds = _calc_bounds pts := by
  rw [assignData_ok w pts hlen hvalid]

theorem setData_bounds_recomputed_witness :
    2 ≤ ([⟨1, 1⟩, ⟨2, 2⟩] : List LatLng).length ∧
    (∀ p ∈ ([⟨1, 1⟩, ⟨2, 2⟩] : List LatLng),
      is_valid_point (p.lat, p.lng) = true) ∧
    (assignData
        { Polyline.defaultState with
          data := [⟨5, 5⟩, ⟨6, 6⟩],
          data_bounds := [(5, 5), (6, 6)] }
        [⟨1, 1⟩, ⟨2, 2⟩]).1.data_bounds =
      _calc_bounds [⟨1, 1⟩, ⟨2, 2⟩] :=
  ⟨by decide, by decide,
    setData_bounds_recomputed
      { Polyline.defaultState with
        data := [⟨5, 5⟩, ⟨6, 6⟩],
        data_bounds := [(5, 5), (6, 6)] }
      [⟨1, 1⟩, ⟨2, 2⟩] (by decide) (by decide)⟩

/-- C6: the construction helper with points [(46.4, 6.9), (46.9, 8.0)] and
the default style parameters yields a widget with geodesic = true,
stroke_color = "#FF0000", stroke_opacity = 1 and stroke_weight = 2. -/
theorem polyline_layer_default_style :
    ∃ w, polyline_layer_defaults [(46.4, 6.9), (46.9, 8.0)] = Except.ok w ∧
      w.geodesic = true ∧ w.stroke_color = "#FF0000" ∧
      w.stroke_opacity = 1 ∧ w.stroke_weight = 2 := by
  refine ⟨⟨true, "#FF0000", 1, 2, [⟨46.4, 6.9⟩, ⟨46.9, 8.0⟩],
    [(46.4, 6.9), (46.9, 8.0)]⟩, ?_, rfl, rfl, rfl, rfl⟩
  norm_num [polyline_layer_defaults, polyline_layer, _polyline_options,
    locations_to_latlng, setData, _validate_data, is_valid_point, _calc_bounds,
    pymin, pymax, List.find?, min_def, max_def]

/-- C7: the construction helper on the three points
[(48.85341, 2.3488), (50.85045, 4.34878), (52.37403, 4.88969)] succeeds with
data_bounds = [(48.85341, 2.3488), (52.37403, 4.88969)]. -/
theorem polyline_layer_bounds_concrete :
    ∃ w, polyline_layer_defaults
        [(48.85341, 2.3488), (50.85045, 4.34878), (52.37403, 4.88969)] =
        Except.ok w ∧
      w.data_bounds = [(48.85341, 2.3488), (52.37403, 4.88969)] := by
  refine ⟨⟨true, "#FF0000", 1, 2,
    [⟨48.85341, 2.3488⟩, ⟨50.85045, 4.34878⟩, ⟨52.37403, 4.88969⟩],
    [(48.85341, 2.3488), (52.37403, 4.88969)]⟩, ?_, rfl⟩
  norm_num [polyline_layer_defaults, polyline_layer, _polyline_options,
    locations_to_latlng, setData, _validate_data, is_valid_point, _calc_bounds,
    pymin, pymax, List.find?, min_def, max_def]

/-- C8: assigning stroke_opacity a value outside [0, 1] or stroke_weight a
value outside [1, 5] is rejected fail-fast: an out-of-range error is raised
and the committed state is unchanged; values inside the declared ranges are
accepted and committed. -/
theorem stroke_range_policy (w : Polyline) (v u : ℚ) :
    ((assignStrokeOpacity w v).2.isSome ↔ v < 0 ∨ 1 < v) ∧
    (v < 0 ∨ 1 < v → (assignStrokeOpacity w v).1 = w) ∧
    (0 ≤ v → v ≤ 1 → (assignStrokeOpacity w v).1.stroke_opacity = v ∧
      (assignStrokeOpacity w v).2 = none) ∧
    ((assignStrokeWeight w u).2.isSome ↔ u < 1 ∨ 5 < u) ∧
    (u < 1 ∨ 5 < u → (assignStrokeWeight w u).1 = w) ∧
    (1 ≤ u → u ≤ 5 → (assignStrokeWeight w u).1.stroke_weight = u ∧
      (assignStrokeWeight w u).2 = none) := by
  have hov : ¬ (0 ≤ v ∧ v ≤ 1) ↔ (v < 0 ∨ 1 < v) := by
    rw [not_and_or, not_le, not_le]
  have hwt : ¬ (1 ≤ u ∧ u ≤ 5) ↔ (u < 1 ∨ 5 < u) := by
    rw [not_and_or, not_le, not_le]
  unfold assignStrokeOpacity assignStrokeWeight
  refine ⟨?_, ?_, ?_, ?_, ?_, ?_⟩
  · by_cases h : 0 ≤ v ∧ v ≤ 1
    · rw [if_pos h]
      refine iff_of_false (by simp) ?_
      rintro (hb | hb) <;> linarith [h.1, h.2]
    · rw [if_neg h]
      exact iff_of_true (by simp) (hov.mp h)
  · intro hout
    rw [if_neg (hov.mpr hout)]
  · intro h1 h2
    rw [if_pos ⟨h1, h2⟩]
    exact ⟨rfl, rfl⟩
  · by_cases h : 1 ≤ u ∧ u ≤ 5
    · rw [if_pos h]
      refine iff_of_false (by simp) ?_
      rintro (hb | hb) <;> linarith [h.1, h.2]
    · rw [if_neg h]
      exact iff_of_true (by simp) (hwt.mp h)
  · intro hout
    rw [if_neg (hwt.mpr hout)]
  · intro h1 h2
    rw [if_pos ⟨h1, h2⟩]
    exact ⟨rfl, rfl⟩

theorem stroke_range_policy_witness :
    (assignStrokeOpacity Polyline.defaultState 2).1 = Polyline.defaultState ∧
    (assignStrokeWeight Polyline.defaultState 3).1.stroke_weight = 3 :=
  ⟨(stroke_range_policy Polyline.defaultState 2 3).2.1 (Or.inr (by norm_num)),
    ((stroke_range_policy Polyline.defaultState 2 3).2.2.2.2.2
      (by norm_num) (by norm_num)).1⟩

/-- C9: data_bounds is invariant under permutation of the committed
sequence: committing a valid sequence or any reordering of it yields the
same data_bounds, whatever the prior states. -/
theorem data_bounds_perm_invariant (w1 w2 : Polyline) (pts1 pts2 : List LatLng)
    (hperm : pts1.Perm pts2)
    (hlen : 2 ≤ pts1.length)
    (hvalid : ∀ p ∈ pts1, is_valid_point (p.lat, p.lng) = true) :
    (assignData w1 pts1).1.data_bounds = (assignData w2 pts2).1.data_bounds := by
  have hlen2 : 2 ≤ pts2.length := by rw [← hperm.length_eq]; exact hlen
  have hvalid2 : ∀ p ∈ pts2, is_valid_point (p.lat, p.lng) = true := fun p hp =>
    hvalid p (hperm.symm.subset hp)
  rw [assignData_ok w1 pts1 hlen hvalid, assignData_ok w2 pts2 hlen2 hvalid2]
  show _calc_bounds pts1 = _calc_bounds pts2
  cases pts1 with
  | nil => simp at hlen
  | cons p1 r1 =>
    cases pts2 with
    | nil => simp at hlen2
    | cons p2 r2 =>
      have hlat : (p1.lat :: r1.map LatLng.lat).Perm
          (p2.lat :: r2.map LatLng.lat) := by
        simpa using hperm.map LatLng.lat
      have hlng : (p1.lng :: r1.map LatLng.lng).Perm
          (p2.lng :: r2.map LatLng.lng) := by
        simpa using hperm.map LatLng.lng
      simp only [_calc_bounds]
      rw [pymin_perm hlat, pymin_perm hlng, pymax_perm hlat, pymax_perm hlng]

theorem data_bounds_perm_invariant_witness :
    ([⟨1, 1⟩, ⟨2, 2⟩] : List LatLng).Perm [⟨2, 2⟩, ⟨1, 1⟩] ∧
    2 ≤ ([⟨1, 1⟩, ⟨2, 2⟩] : List LatLng).length ∧
    (∀ p ∈ ([⟨1, 1⟩, ⟨2, 2⟩] : List LatLng),
      is_valid_point (p.lat, p.lng) = true) ∧
    (assignData Polyline.defaultState [⟨1, 1⟩, ⟨2, 2⟩]).1.data_bounds =
      (assignData Polyline.defaultState [⟨2, 2⟩, ⟨1, 1⟩]).1.data_bounds :=
  ⟨List.Perm.swap (⟨2, 2⟩ : LatLng) (⟨1, 1⟩ : LatLng) [], by decide, by decide,
    data_bounds_perm_invariant Polyline.defaultState Polyline.defaultState
      [⟨1, 1⟩, ⟨2, 2⟩] [⟨2, 2⟩, ⟨1, 1⟩]
      (List.Perm.swap (⟨2, 2⟩ : LatLng) (⟨1, 1⟩ : LatLng) []) (by decide)
      (by decide)⟩

theorem mem_map_lat_ranges {x : ℚ} {pts : List LatLng}
    (hvalid : ∀ p ∈ pts, is_valid_point (p.lat, p.lng) = true)
    (hx : x ∈ pts.map LatLng.lat) : -90 ≤ x ∧ x ≤ 90 := by
  obtain ⟨q, hq, rfl⟩ := List.mem_map.mp hx
  exact ⟨(valid_point_ranges (hvalid q hq)).1,
    (valid_point_ranges (hvalid q hq)).2.1⟩

theorem mem_map_lng_ranges {x : ℚ} {pts : List LatLng}
    (hvalid : ∀ p ∈ pts, is_valid_point (p.lat, p.lng) = true)
    (hx : x ∈ pts.map LatLng.lng) : -180 ≤ x ∧ x ≤ 180 := by
  obtain ⟨q, hq, rfl⟩ := List.mem_map.mp hx
  exact ⟨(valid_point_ranges (hvalid q hq)).2.2.1,
    (valid_point_ranges (hvalid q hq)).2.2.2⟩

/-- C10: after every successful assignment of data, data_bounds is a
two-element list whose first pair is componentwise at most the second, each
component is attained by some point of the committed sequence, and (all
points being valid) both corners lie within the valid coordinate ranges. -/
theorem data_bounds_wellformed (w : Polyline) (pts : List LatLng)
    (hlen : 2 ≤ pts.length)
    (hvalid : ∀ p ∈ pts, is_valid_point (p.lat, p.lng) = true) :
    ∃ a b c d, (assignData w pts).1.data_bounds = [(a, b), (c, d)] ∧
      a ≤ c ∧ b ≤ d ∧
      a ∈ pts.map LatLng.lat ∧ b ∈ pts.map LatLng.lng ∧
      c ∈ pts.map LatLng.lat ∧ d ∈ pts.map LatLng.lng ∧
      -90 ≤ a ∧ a ≤ 90 ∧ -180 ≤ b ∧ b ≤ 180 ∧
      -90 ≤ c ∧ c ≤ 90 ∧ -180 ≤ d ∧ d ≤ 180 := by
  rw [assignData_ok w pts hlen hvalid]
  cases pts with
  | nil => simp at hlen
  | cons p rest =>
    obtain ⟨a, b, c, d, heq, hma, hla, hmb, hlb, hmc, hlc, hmd, hld⟩ :=
      calc_bounds_spec p rest
    obtain ⟨qc, hqc, hqceq⟩ := List.mem_map.mp hmc
    obtain ⟨qd, hqd, hqdeq⟩ := List.mem_map.mp hmd
    have hac : a ≤ c := hqceq ▸ hla qc hqc
    have hbd : b ≤ d := hqdeq ▸ hlb qd hqd
    obtain ⟨ha1, ha2⟩ := mem_map_lat_ranges hvalid hma
    obtain ⟨hb1, hb2⟩ := mem_map_lng_ranges hvalid hmb
    obtain ⟨hc1, hc2⟩ := mem_map_lat_ranges hvalid hmc
    obtain ⟨hd1, hd2⟩ := mem_map_lng_ranges hvalid hmd
    exact ⟨a, b, c, d, heq, hac, hbd, hma, hmb, hmc, hmd,
      ha1, ha2, hb1, hb2, hc1, hc2, hd1, hd2⟩

theorem data_bounds_wellformed_witness :
    2 ≤ ([⟨3, 4⟩, ⟨1, 2⟩] : List LatLng).length ∧
    (∀ p ∈ ([⟨3, 4⟩, ⟨1, 2⟩] : List LatLng),
      is_valid_point (p.lat, p.lng) = true) ∧
    ∃ a b c d,
      (assignData Polyline.defaultState [⟨3, 4⟩, ⟨1, 2⟩]).1.data_bounds =
        [(a, b), (c, d)] ∧
      a ≤ c ∧ b ≤ d ∧
      a ∈ ([⟨3, 4⟩, ⟨1, 2⟩] : List LatLng).map LatLng.lat ∧
      b ∈ ([⟨3, 4⟩, ⟨1, 2⟩] : List LatLng).map LatLng.lng ∧
      c ∈ ([⟨3, 4⟩, ⟨1, 2⟩] : List LatLng).map LatLng.lat ∧
      d ∈ ([⟨3, 4⟩, ⟨1, 2⟩] : List LatLng).map LatLng.lng ∧
      -90 ≤ a ∧ a ≤ 90 ∧ -180 ≤ b ∧ b ≤ 180 ∧
      -90 ≤ c ∧ c ≤ 90 ∧ -180 ≤ d ∧ d ≤ 180 :=
  ⟨by decide, by decide,
    data_bounds_wellformed Polyline.defaultState [⟨3, 4⟩, ⟨1, 2⟩]
      (by decide) (by decide)⟩
